import Mathlib

/-!
Verification development for the ftps_qftp-server repository (Go).

The Go sources are shallowly embedded: Go strings become Lean `String`
(operated on through their `List Char` data, one `Char` per byte for the
ASCII inputs the protocol handles), Go `int64` becomes `Int` with the
explicit clamping the Go standard library performs, fallible calls return
`Option`/`Except`, and the external collaborators (Driver, Auth, the QUIC
session) are oracle records whose answers are threaded explicitly.
Handler executions produce an explicit event trace (replies written,
data-stream writes, stream closes) so that reply-accounting properties
can be stated.
-/

namespace FtpsQftp

/-! ## Go string primitives (modelled byte-per-char for ASCII data) -/

/-- Whitespace test used by strings.Fields / strings.TrimSpace
(unicode.IsSpace restricted to the ASCII range, which is all the
protocol grammar produces). -/
def isGoSpace (c : Char) : Bool :=
  c = ' ' || c = '\t' || c = '\n' || c = '\x0b' || c = '\x0c' || c = '\r'

/-- Accumulating core of strings.Fields. -/
def fieldsAux : List Char → List Char → List (List Char)
  | cur, [] => if cur = [] then [] else [cur.reverse]
  | cur, c :: cs =>
    if isGoSpace c then
      if cur = [] then fieldsAux [] cs else cur.reverse :: fieldsAux [] cs
    else fieldsAux (c :: cur) cs

/-- Embedding of strings.Fields: split around runs of whitespace. -/
def goFields (s : String) : List String :=
  (fieldsAux [] s.data).map String.mk

/-- Embedding of strings.ToUpper (ASCII range). -/
def goToUpper (s : String) : String :=
  String.mk (s.data.map Char.toUpper)

/-- Split a character list at the first occurrence of a separator
character, if any. -/
def splitFirst : List Char → Char → Option (List Char × List Char)
  | [], _ => none
  | c :: cs, sep =>
    if c = sep then some ([], cs)
    else
      match splitFirst cs sep with
      | none => none
      | some (a, b) => some (c :: a, b)

/-- Embedding of strings.SplitN(s, sep, 2) for a one-character separator:
either the whole string (no separator present) or the parts before and
after the first separator. -/
def goSplitN2 (s : String) (sep : Char) : List String :=
  match splitFirst s.data sep with
  | none => [s]
  | some (a, b) => [String.mk a, String.mk b]

/-- Carriage-return / newline test for strings.Trim(line, a cutset of CR
and LF). -/
def isCRLFChar (c : Char) : Bool := c = '\r' || c = '\n'

/-- Embedding of strings.Trim with that cutset: drop CR and LF
characters from both ends. -/
def goTrimCRLF (l : List Char) : List Char :=
  ((l.dropWhile isCRLFChar).reverse.dropWhile isCRLFChar).reverse

/-- Embedding of strings.TrimSpace: drop whitespace from both ends. -/
def goTrimSpace (l : List Char) : List Char :=
  ((l.dropWhile isGoSpace).reverse.dropWhile isGoSpace).reverse

/-- Index (from the end) of the last occurrence of the pattern in the
list, as strings.LastIndex computes it; none when absent. -/
def lastIndexAux (l pat : List Char) : Option Nat :=
  ((List.range (l.length + 1)).filter (fun i => pat.isPrefixOf (l.drop i))).getLast?

/-- Embedding of strings.LastIndex: byte index of the last occurrence,
minus one when the pattern does not occur. -/
def goLastIndex (l pat : List Char) : Int :=
  match lastIndexAux l pat with
  | none => -1
  | some i => (i : Int)

/-! ## Path sanitiser: filepath.Clean and SubConn.buildPath -/

/-- Split a character list on every slash; always returns at least one
(possibly empty) component. -/
def splitSlash : List Char → List (List Char)
  | [] => [[]]
  | c :: cs =>
    match splitSlash cs with
    | [] => [[]]
    | w :: ws => if c = '/' then [] :: w :: ws else (c :: w) :: ws

/-- Join components with single slashes (inverse of splitSlash on
slash-free components). -/
def joinSlash : List (List Char) → List Char
  | [] => []
  | [w] => w
  | w :: ws => w ++ '/' :: joinSlash ws

/-- Core of the lexical cleaning loop of path/filepath.Clean: process
the components left to right against a reversed-accumulator of output
components, skipping empty and dot components, resolving dot-dot
against the accumulator (dropped at the root when rooted). -/
def cleanParts (rooted : Bool) : List (List Char) → List (List Char) → List (List Char)
  | acc, [] => acc.reverse
  | acc, c :: cs =>
    if c = [] ∨ c = ['.'] then cleanParts rooted acc cs
    else if c = ['.', '.'] then
      match acc with
      | [] => if rooted then cleanParts rooted [] cs else cleanParts rooted [['.', '.']] cs
      | top :: rest =>
        if top = ['.', '.'] then cleanParts rooted (['.', '.'] :: top :: rest) cs
        else cleanParts rooted rest cs
    else cleanParts rooted (c :: acc) cs

/-- Embedding of path/filepath.Clean on the POSIX build: lexical
normalisation collapsing repeated slashes and dot / dot-dot components,
yielding a dot for an empty result. -/
def cleanChars (l : List Char) : List Char :=
  match l with
  | [] => ['.']
  | c :: _ =>
    let rooted := c = '/'
    let parts := cleanParts rooted [] (splitSlash l)
    if rooted then '/' :: joinSlash parts
    else if parts = [] then ['.']
    else joinSlash parts

/-- Embedding of the strings.Replace(fullPath, double slash, single
slash, minus one) call of buildPath: left-to-right non-overlapping
replacement of each adjacent slash pair by one slash. -/
def replaceDoubleSlash : List Char → List Char
  | [] => []
  | [c] => [c]
  | c1 :: c2 :: rest =>
    if c1 = '/' ∧ c2 = '/' then '/' :: replaceDoubleSlash rest
    else c1 :: replaceDoubleSlash (c2 :: rest)

/-- Embedding of strings.Replace(fullPath, string(filepath.Separator),
slash, minus one) on the POSIX build, where the separator already is the
slash: each separator character is replaced by a slash, everything else
kept. -/
def replaceSepSlash : List Char → List Char
  | [] => []
  | c :: rest => (if c = '/' then '/' else c) :: replaceSepSlash rest

/-- Embedding of SubConn.buildPath on character lists: choose the
cleaned candidate exactly as the source does (absolute filename alone;
non-empty filename other than the literal dash-a appended to the
prefix; otherwise the prefix alone), then apply the two Replace
passes. -/
def buildPathChars (namePrefix filename : List Char) : List Char :=
  let fullPath :=
    if filename ≠ [] ∧ filename.headD ' ' = '/' then cleanChars filename
    else if filename ≠ [] ∧ filename ≠ ['-', 'a'] then
      cleanChars (namePrefix ++ '/' :: filename)
    else cleanChars namePrefix
  replaceSepSlash (replaceDoubleSlash fullPath)

/-- Embedding of SubConn.buildPath, with the sub-connection state field
namePrefix passed explicitly. -/
def buildPath (namePrefix filename : String) : String :=
  String.mk (buildPathChars namePrefix.data filename.data)

/-- A path has a dot-dot component when splitting it on slashes yields
the two-dot component. -/
def dotDotFree (s : String) : Prop := ['.', '.'] ∉ splitSlash s.data

instance (s : String) : Decidable (dotDotFree s) := by
  unfold dotDotFree; infer_instance

/-- A string begins with a slash. -/
def startsWithSlash (s : String) : Bool :=
  match s.data with
  | '/' :: _ => true
  | _ => false

example : buildPath "/" "/" = "/" := by decide
example : buildPath "/" "one.txt" = "/one.txt" := by decide
example : buildPath "/any" "/files/two.txt" = "/files/two.txt" := by decide
example : buildPath "/" "files/two.txt" = "/files/two.txt" := by decide
example : buildPath "/" "/../../../../etc/passwd" = "/etc/passwd" := by decide
example : buildPath "/files" "" = "/files" := by decide
example : buildPath "/files" "-a" = "/files" := by decide

/-! ## parseListParam -/

/-- Loop body of parseListParam: walk the whitespace fields; while a
field starts with a dash, move the cut index past the last occurrence
of a space followed by that field; stop at the first non-flag field. -/
def parseListParamIndex (param : List Char) : List String → Nat → Nat
  | [], i => i
  | f :: fs, i =>
    match f.data with
    | '-' :: _ =>
      parseListParamIndex param fs
        (Int.toNat (goLastIndex param (' ' :: f.data) + f.data.length + 1))
    | _ => i

/-- Embedding of parseListParam: skip leading dash flags, keep the rest
of the parameter (spaces inside the path preserved) with leading spaces
trimmed. -/
def parseListParam (param : String) : String :=
  match param.data with
  | [] => param
  | _ =>
    let i := parseListParamIndex param.data (goFields param) 0
    String.mk ((param.data.drop i).dropWhile (fun c => c = ' '))

example : parseListParam "-a /docs" = "/docs" := by decide
example : parseListParam "-a" = "" := by decide
example : parseListParam "a b" = "a b" := by decide

/-! ## strconv.ParseInt(param, 10, 64) -/

/-- Decimal digit value of a character, if it is a digit. -/
def digitVal (c : Char) : Option Nat :=
  if '0' ≤ c && c ≤ '9' then some (c.toNat - '0'.toNat) else none

/-- Result of the unsigned parse: a number, a syntax failure, or an
overflow (which in Go reports the maximum value with ErrRange). -/
inductive PUResult where
  | oknum (n : Nat)
  | syntaxErr
  | rangeErr
deriving DecidableEq

/-- Scanning loop of strconv.ParseUint for base ten and bit size 64:
reject a non-digit immediately, report range overflow as soon as the
accumulator would exceed the 64-bit bound. -/
def parseUintLoop : List Char → Nat → PUResult
  | [], n => .oknum n
  | c :: cs, n =>
    match digitVal c with
    | none => .syntaxErr
    | some d =>
      if n ≥ 1844674407370955162 then .rangeErr
      else if n * 10 + d > 18446744073709551615 then .rangeErr
      else parseUintLoop cs (n * 10 + d)

/-- Embedding of strconv.ParseUint(s, 10, 64): empty input is a syntax
error. -/
def parseUint10_64 (l : List Char) : PUResult :=
  match l with
  | [] => .syntaxErr
  | _ => parseUintLoop l 0

/-- Embedding of strconv.ParseInt(s, 10, 64), returning the value the
Go call assigns together with an ok flag (false exactly when Go returns
a non-nil error). Syntax errors yield zero; range errors yield the
clamped extreme of the int64 range, as the Go library does. -/
def parseInt10_64 (s : String) : Int × Bool :=
  match s.data with
  | [] => (0, false)
  | l =>
    let signed : Bool × List Char :=
      match l with
      | '+' :: rest => (false, rest)
      | '-' :: rest => (true, rest)
      | _ => (false, l)
    let neg := signed.1
    match parseUint10_64 signed.2 with
    | .syntaxErr => (0, false)
    | .rangeErr => if neg then (-9223372036854775808, false) else (9223372036854775807, false)
    | .oknum un =>
      if !neg && un ≥ 9223372036854775808 then (9223372036854775807, false)
      else if neg && un > 9223372036854775808 then (-9223372036854775808, false)
      else if neg then (-(un : Int), true)
      else ((un : Int), true)

example : parseInt10_64 "100" = (100, true) := by decide
example : parseInt10_64 "-5" = (-5, true) := by decide
example : parseInt10_64 "abc" = (0, false) := by decide
example : parseInt10_64 "" = (0, false) := by decide
example : parseInt10_64 "9223372036854775807" = (9223372036854775807, true) := by decide
example : parseInt10_64 "9223372036854775808" = (9223372036854775807, false) := by decide
example : parseInt10_64 "-9223372036854775808" = (-9223372036854775808, true) := by decide
example : parseInt10_64 "-9223372036854775809" = (-9223372036854775808, false) := by decide

/-! ## Data model: errors, file info, streams, driver and auth oracles -/

/-- A Go error value, carrying the text its Error method returns. -/
structure GoErr where
  msg : String
deriving DecidableEq

/-- The capability set of the FileInfo values the driver returns, with
the modification time already rendered in the MDTM wire format. -/
structure FileInfo where
  name : String
  size : Int
  isDir : Bool
  modTimeFormatted : String
deriving DecidableEq

/-- A unidirectional inbound (client-initiated) data stream, identified
by its QUIC stream id. -/
structure RecvStream where
  id : Int
deriving DecidableEq

/-- A unidirectional outbound (server-initiated) data stream,
identified by its QUIC stream id. -/
structure SendStream where
  id : Int
deriving DecidableEq

/-- Oracle record for the Driver interface consumed by the handlers.
Error-only methods return some error or none; GetFile returns the size
and an abstract reader handle. -/
structure Driver where
  changeDir : String → Option GoErr
  stat : String → Except GoErr (Option FileInfo)
  listDir : String → Except GoErr (List FileInfo)
  deleteDir : String → Option GoErr
  deleteFile : String → Option GoErr
  rename : String → String → Option GoErr
  makeDir : String → Option GoErr
  getFile : String → Int → Except GoErr (Int × Nat)
  putFile : String → Option RecvStream → Bool → Except GoErr Int

/-- Oracle record for the remaining external collaborators: the Auth
back-end, the io.Copy outcome per reader handle, the two listing
formatters (whose source file is outside src/ and which the claims only
consume through the byte counts and payloads they return), and the
feature text computed at server start. -/
structure Env where
  driver : Driver
  checkPasswd : String → String → Except GoErr Bool
  ioCopy : Nat → Except GoErr Int
  detailed : List FileInfo → List Char
  short : List FileInfo → List Char
  feats : String

/-- The per-dialog fields of the SubConn struct (the stream handles,
logger, driver and session id are carried by Env and the event
trace). -/
structure SubConn where
  namePrefix : String
  reqUser : String
  user : String
  renameFrom : String
  lastFilePos : Int
  appendData : Bool
  closed : Bool
deriving DecidableEq

instance exceptDecEq {ε α : Type} [DecidableEq ε] [DecidableEq α] :
    DecidableEq (Except ε α) := fun a b =>
  match a, b with
  | .error e, .error f =>
    if h : e = f then .isTrue (by rw [h]) else .isFalse (by intro hh; cases hh; exact h rfl)
  | .error _, .ok _ => .isFalse (by intro hh; cases hh)
  | .ok _, .error _ => .isFalse (by intro hh; cases hh)
  | .ok x, .ok y =>
    if h : x = y then .isTrue (by rw [h]) else .isFalse (by intro hh; cases hh; exact h rfl)

/-- The machine state a handler can touch: the sub-connection dialog
state plus the session-owned inbound stream map, the queue of inbound
unidirectional streams the session will accept (in arrival order), and
the queue of outcomes OpenUniStreamSync will produce. -/
structure St where
  sub : SubConn
  recvMap : List (Int × RecvStream)
  recvPending : List RecvStream
  sendQueue : List (Except GoErr SendStream)
deriving DecidableEq

/-- Observable events of one handler execution: single and multi line
replies, a write of a payload to a data stream, an io.Copy from a
reader handle into a data stream, and a stream close. -/
inductive Ev where
  | reply (code : Nat) (message : String)
  | replyMulti (code : Nat) (message : String)
  | dataOut (streamId : Int) (payload : List Char)
  | copyOut (streamId : Int) (reader : Nat)
  | closeStream (streamId : Int)
deriving DecidableEq

/-- Result of executing a handler (or dispatching a line): the final
state and trace, normally; or a Go runtime panic, with the state and
trace accumulated up to it. -/
inductive Outcome where
  | ok (st : St) (trace : List Ev)
  | panic (st : St) (trace : List Ev) (msg : String)
deriving DecidableEq

/-- Final state of an outcome. -/
def Outcome.finalSt : Outcome → St
  | .ok st _ => st
  | .panic st _ _ => st

/-- Event trace of an outcome. -/
def Outcome.trace : Outcome → List Ev
  | .ok _ t => t
  | .panic _ t _ => t

/-- Whether the execution ended in a runtime panic. -/
def Outcome.isPanic : Outcome → Bool
  | .ok _ _ => false
  | .panic _ _ _ => true

/-- Reply events (writeMessage or writeMessageMultiline) in a trace. -/
def isReplyEv : Ev → Bool
  | .reply _ _ => true
  | .replyMulti _ _ => true
  | _ => false

/-- Number of FTP replies written during an execution. -/
def replyCount (t : List Ev) : Nat := (t.filter isReplyEv).length

/-! ## Data stream routing (Conn.getReceiveDataStream and
Conn.getNewSendDataStream) -/

/-- Lookup in the inbound stream map (the Go map read). -/
def lookupRecv : List (Int × RecvStream) → Int → Option RecvStream
  | [], _ => none
  | (k, s) :: rest, w => if k = w then some s else lookupRecv rest w

/-- Insertion into the inbound stream map (the Go map assignment keyed
by the stream's own id); the newest binding shadows older ones. -/
def insertRecv (m : List (Int × RecvStream)) (s : RecvStream) : List (Int × RecvStream) :=
  (s.id, s) :: m

/-- Accept loop of Conn.getReceiveDataStream: accept inbound
unidirectional streams in arrival order, inserting each into the map;
stop with the stream when its id equals the wanted one, with the
routing error when it exceeds it, and with the accept error when the
session yields no further stream. -/
def acceptRecvLoop : List RecvStream → List (Int × RecvStream) → Int →
    Except GoErr RecvStream × List (Int × RecvStream) × List RecvStream
  | [], m, _ => (.error ⟨"accept error"⟩, m, [])
  | s :: rest, m, wanted =>
    let m1 := insertRecv m s
    if s.id > wanted then (.error ⟨"Could not get wanted stream."⟩, m1, rest)
    else if s.id = wanted then (.ok s, m1, rest)
    else acceptRecvLoop rest m1 wanted

/-- Embedding of Conn.getReceiveDataStream: return the mapped stream
when the wanted id is already present, else run the accept loop. -/
def getReceiveDataStream (st : St) (wanted : Int) : Except GoErr RecvStream × St :=
  match lookupRecv st.recvMap wanted with
  | some s => (.ok s, st)
  | none =>
    match acceptRecvLoop st.recvPending st.recvMap wanted with
    | (r, m1, pending1) => (r, { st with recvMap := m1, recvPending := pending1 })

/-- Embedding of Conn.getNewSendDataStream: one OpenUniStreamSync call,
drawing the next outcome from the session's queue (an exhausted queue
models a failing open). -/
def getNewSendDataStream (st : St) : Except GoErr SendStream × St :=
  match st.sendQueue with
  | [] => (.error ⟨"open stream error"⟩, st)
  | r :: rest => (r, { st with sendQueue := rest })

/-! ## Response helpers -/

/-- Events of SubConn.sendOutofbandData: write the payload, close the
stream, then write the closing 226 reply whose text carries the
source's misspelling of the word stream. -/
def sendOutofbandDataEvents (data : List Char) (stream : SendStream) : List Ev :=
  [.dataOut stream.id data, .closeStream stream.id,
   .reply 226 ("Closing data strea,, sent " ++ toString data.length ++ " bytes")]

/-! ## Command handlers -/

/-- Embedding of commandAllo.Execute. -/
def commandAlloExecute (_env : Env) (st : St) (_param : String) : Outcome :=
  .ok st [.reply 202 "Obsolete"]

/-- Embedding of commandAppe.Execute. -/
def commandAppeExecute (_env : Env) (st : St) (_param : String) : Outcome :=
  .ok { st with sub := { st.sub with appendData := true } } [.reply 202 "Obsolete"]

/-- Embedding of commandOpts.Execute. -/
def commandOptsExecute (_env : Env) (st : St) (param : String) : Outcome :=
  match goFields param with
  | [p0, p1] =>
    if goToUpper p0 ≠ "UTF8" then .ok st [.reply 550 "Unknow params"]
    else if goToUpper p1 = "ON" then .ok st [.reply 200 "UTF8 mode enabled"]
    else .ok st [.reply 550 "Unsupported non-utf8 mode"]
  | _ => .ok st [.reply 550 "Unknow params"]

/-- Embedding of commandFeat.Execute. -/
def commandFeatExecute (env : Env) (st : St) (_param : String) : Outcome :=
  .ok st [.replyMulti 211 env.feats]

/-- Embedding of commandCwd.Execute. -/
def commandCwdExecute (env : Env) (st : St) (param : String) : Outcome :=
  let path := buildPath st.sub.namePrefix param
  match env.driver.changeDir path with
  | none =>
    .ok { st with sub := { st.sub with namePrefix := path } }
      [.reply 250 ("Directory changed to " ++ path)]
  | some e =>
    .ok st [.reply 550 ("Directory change to " ++ path ++ " failed: " ++ e.msg)]

/-- Embedding of commandCdup.Execute: delegates to CWD with a dot-dot
parameter. -/
def commandCdupExecute (env : Env) (st : St) (_param : String) : Outcome :=
  commandCwdExecute env st ".."

/-- Embedding of commandDele.Execute. -/
def commandDeleExecute (env : Env) (st : St) (param : String) : Outcome :=
  let path := buildPath st.sub.namePrefix param
  match env.driver.deleteFile path with
  | none => .ok st [.reply 250 "File deleted"]
  | some e => .ok st [.reply 550 ("File delete failed: " ++ e.msg)]

/-- Embedding of commandList.Execute. A nil FileInfo with a nil error
only logs and returns, writing no reply (the edge case the spec flags);
a non-directory is listed as the single entry. -/
def commandListExecute (env : Env) (st : St) (param : String) : Outcome :=
  let path := buildPath st.sub.namePrefix (parseListParam param)
  match env.driver.stat path with
  | .error e => .ok st [.reply 550 e.msg]
  | .ok none => .ok st []
  | .ok (some info) =>
    match (if info.isDir then env.driver.listDir path else .ok [info] :
        Except GoErr (List FileInfo)) with
    | .error e => .ok st [.reply 550 e.msg]
    | .ok files =>
      match getNewSendDataStream st with
      | (.error _, st1) => .ok st1 [.reply 425 "Can't open data stream."]
      | (.ok stream, st1) =>
        .ok st1
          (.reply 150 (toString stream.id ++ " Opening ASCII mode data connection for file list")
            :: sendOutofbandDataEvents (env.detailed files) stream)

/-- Embedding of commandNlst.Execute. Unlike LIST it has no nil check
before info.IsDir(), so a nil FileInfo with a nil error dereferences a
nil interface and panics. -/
def commandNlstExecute (env : Env) (st : St) (param : String) : Outcome :=
  let path := buildPath st.sub.namePrefix (parseListParam param)
  match env.driver.stat path with
  | .error e => .ok st [.reply 550 e.msg]
  | .ok none => .panic st [] "runtime error: invalid memory address or nil pointer dereference"
  | .ok (some info) =>
    if !info.isDir then .ok st [.reply 550 (param ++ " is not a directory")]
    else
      match env.driver.listDir path with
      | .error e => .ok st [.reply 550 e.msg]
      | .ok files =>
        match getNewSendDataStream st with
        | (.error _, st1) => .ok st1 [.reply 425 "Can't open data stream."]
        | (.ok stream, st1) =>
          .ok st1
            (.reply 150 (toString stream.id ++ " Opening ASCII mode data connection for file list")
              :: sendOutofbandDataEvents (env.short files) stream)

/-- Embedding of commandMdtm.Execute. -/
def commandMdtmExecute (env : Env) (st : St) (param : String) : Outcome :=
  let path := buildPath st.sub.namePrefix param
  match env.driver.stat path with
  | .ok (some info) => .ok st [.reply 213 info.modTimeFormatted]
  | .ok none => .panic st [] "runtime error: invalid memory address or nil pointer dereference"
  | .error _ => .ok st [.reply 450 "File not available"]

/-- Embedding of commandMkd.Execute. -/
def commandMkdExecute (env : Env) (st : St) (param : String) : Outcome :=
  let path := buildPath st.sub.namePrefix param
  match env.driver.makeDir path with
  | none => .ok st [.reply 257 "Directory created"]
  | some e => .ok st [.reply 550 ("Action not taken: " ++ e.msg)]

/-- Embedding of commandMode.Execute. -/
def commandModeExecute (_env : Env) (st : St) (param : String) : Outcome :=
  if goToUpper param = "S" then .ok st [.reply 200 "OK"]
  else .ok st [.reply 504 "MODE is an obsolete command"]

/-- Embedding of commandNoop.Execute. -/
def commandNoopExecute (_env : Env) (st : St) (_param : String) : Outcome :=
  .ok st [.reply 200 "OK"]

/-- Embedding of commandPass.Execute. -/
def commandPassExecute (env : Env) (st : St) (param : String) : Outcome :=
  match env.checkPasswd st.sub.reqUser param with
  | .error _ => .ok st [.reply 550 "Checking password error"]
  | .ok true =>
    .ok { st with sub := { st.sub with user := st.sub.reqUser, reqUser := "" } }
      [.reply 230 "Password ok, continue"]
  | .ok false => .ok st [.reply 530 "Incorrect password, not logged in"]

/-- Embedding of commandPwd.Execute. -/
def commandPwdExecute (_env : Env) (st : St) (_param : String) : Outcome :=
  .ok st [.reply 257 ("\"" ++ st.sub.namePrefix ++ "\" is the current directory")]

/-- Embedding of commandQuit.Execute: the goodbye reply, then
SubConn.Close, which closes the control stream and sets closed. -/
def commandQuitExecute (_env : Env) (st : St) (_param : String) : Outcome :=
  .ok { st with sub := { st.sub with closed := true } } [.reply 221 "Goodbye"]

/-- Reset applied by the deferred function commandRetr.Execute installs
on entry: clear the restart offset and the append flag. -/
def retrDeferReset (st : St) : St :=
  { st with sub := { st.sub with lastFilePos := 0, appendData := false } }

/-- Embedding of commandRetr.Execute, with the events of
SubConn.sendOutofBandDataWriter inlined on the transfer path (that
helper first zeroes lastFilePos, then copies; on a copy error it closes
the stream and the handler answers 551, otherwise it writes the closing
226 and then closes the stream). The deferred reset applies on every
exit. -/
def commandRetrExecute (env : Env) (st : St) (param : String) : Outcome :=
  let path := buildPath st.sub.namePrefix param
  match env.driver.getFile path st.sub.lastFilePos with
  | .error _ => .ok (retrDeferReset st) [.reply 551 "File not available"]
  | .ok (bytes, reader) =>
    match getNewSendDataStream st with
    | (.error _, st1) => .ok (retrDeferReset st1) [.reply 425 "Can't open data stream."]
    | (.ok stream, st1) =>
      let ev150 := Ev.reply 150
        (toString stream.id ++ " Data transfer starting " ++ toString bytes ++ " bytes")
      match env.ioCopy reader with
      | .error _ =>
        .ok (retrDeferReset st1)
          [ev150, .copyOut stream.id reader, .closeStream stream.id,
           .reply 551 "Error reading file"]
      | .ok n =>
        .ok (retrDeferReset st1)
          [ev150, .copyOut stream.id reader,
           .reply 226 ("Closing data stream, sent " ++ toString n ++ " bytes"),
           .closeStream stream.id]

/-- Embedding of commandRest.Execute: the Go multiple assignment writes
the parse result into lastFilePos before the error test. -/
def commandRestExecute (_env : Env) (st : St) (param : String) : Outcome :=
  let parsed := parseInt10_64 param
  let st1 := { st with sub := { st.sub with lastFilePos := parsed.1 } }
  if parsed.2 = false then .ok st1 [.reply 551 "File not available"]
  else
    .ok { st1 with sub := { st1.sub with appendData := true } }
      [.reply 350 ("Start transfer from " ++ toString parsed.1)]

/-- Embedding of commandRnfr.Execute. -/
def commandRnfrExecute (_env : Env) (st : St) (param : String) : Outcome :=
  .ok { st with sub := { st.sub with renameFrom := buildPath st.sub.namePrefix param } }
    [.reply 350 "Requested file action pending further information."]

/-- Embedding of commandRnto.Execute: the deferred clear of renameFrom
runs on both branches. -/
def commandRntoExecute (env : Env) (st : St) (param : String) : Outcome :=
  let toPath := buildPath st.sub.namePrefix param
  let st1 := { st with sub := { st.sub with renameFrom := "" } }
  match env.driver.rename st.sub.renameFrom toPath with
  | none => .ok st1 [.reply 250 "File renamed"]
  | some e => .ok st1 [.reply 550 ("Action not taken: " ++ e.msg)]

/-- Embedding of commandRmd.Execute. -/
def commandRmdExecute (env : Env) (st : St) (param : String) : Outcome :=
  let path := buildPath st.sub.namePrefix param
  match env.driver.deleteDir path with
  | none => .ok st [.reply 250 "Directory deleted"]
  | some e => .ok st [.reply 550 ("Directory delete failed: " ++ e.msg)]

/-- Embedding of commandSize.Execute; fmt.Sprint with adjacent string
operands inserts no separator, so the failure text really reads
path-then-path-then-not-found without spaces. -/
def commandSizeExecute (env : Env) (st : St) (param : String) : Outcome :=
  let path := buildPath st.sub.namePrefix param
  match env.driver.stat path with
  | .error _ => .ok st [.reply 450 ("path" ++ path ++ "not found")]
  | .ok (some info) => .ok st [.reply 213 (toString info.size)]
  | .ok none => .panic st [] "runtime error: invalid memory address or nil pointer dereference"

/-- Embedding of commandStor.Execute. The source writes its 501 replies
without returning, so execution continues into the 150 reply, the
stream acquisition (whose failure adds a 425, again without returning)
and the driver call; a parameter with no blank makes the params slice a
singleton and the later params index one access panics. -/
def commandStorExecute (env : Env) (st : St) (param : String) : Outcome :=
  let params := goSplitN2 param ' '
  let evA : List Ev :=
    if params.length ≠ 2 then [.reply 501 "Stream ID and path seperated by a blank needed."]
    else []
  let parsed := parseInt10_64 (params.headD "")
  let evB := evA ++
    (if parsed.2 = false || parsed.1 < 0 || Int.tmod parsed.1 4 ≠ 2 then
      [.reply 501 "Stream ID has not a valid value for a unidirectional stream from the client."]
    else [])
  let evC := evB ++ [.reply 150 "Data transfer starting"]
  match getReceiveDataStream st parsed.1 with
  | (streamRes, st1) =>
    let evD := evC ++
      (match streamRes with
        | .error _ => [.reply 425 "Can't open data stream."]
        | .ok _ => [])
    match params with
    | [_, p1] =>
      let targetPath := buildPath st1.sub.namePrefix p1
      let streamOpt : Option RecvStream :=
        match streamRes with
        | .ok s => some s
        | .error _ => none
      let st2 := { st1 with sub := { st1.sub with appendData := false } }
      match env.driver.putFile targetPath streamOpt st1.sub.appendData with
      | .ok n => .ok st2 (evD ++ [.reply 226 ("OK, received " ++ toString n ++ " bytes")])
      | .error e => .ok st2 (evD ++ [.reply 450 ("error during transfer: " ++ e.msg)])
    | _ => .panic st1 evD "runtime error: index out of range"

/-- Embedding of commandStru.Execute. -/
def commandStruExecute (_env : Env) (st : St) (param : String) : Outcome :=
  if goToUpper param = "F" then .ok st [.reply 200 "OK"]
  else .ok st [.reply 504 "STRU is an obsolete command"]

/-- Embedding of commandSyst.Execute. -/
def commandSystExecute (_env : Env) (st : St) (_param : String) : Outcome :=
  .ok st [.reply 215 "UNIX Type: L8"]

/-- Embedding of commandType.Execute. -/
def commandTypeExecute (_env : Env) (st : St) (param : String) : Outcome :=
  if goToUpper param = "A" then .ok st [.reply 200 "Type set to ASCII"]
  else if goToUpper param = "I" then .ok st [.reply 200 "Type set to binary"]
  else .ok st [.reply 500 "Invalid type"]

/-- Embedding of commandUser.Execute. -/
def commandUserExecute (_env : Env) (st : St) (param : String) : Outcome :=
  .ok { st with sub := { st.sub with reqUser := param } }
    [.reply 331 "User name ok, password required"]

/-! ## Command registry and dispatch -/

/-- A command descriptor: the three predicates of the Command interface
plus the Execute action. -/
structure CmdSpec where
  isExtend : Bool
  requireParam : Bool
  requireAuth : Bool
  execute : Env → St → String → Outcome

/-- Descriptor of commandAllo. -/
def alloCmd : CmdSpec := ⟨false, false, false, commandAlloExecute⟩
/-- Descriptor of commandAppe. -/
def appeCmd : CmdSpec := ⟨false, false, true, commandAppeExecute⟩
/-- Descriptor of commandCdup. -/
def cdupCmd : CmdSpec := ⟨false, false, true, commandCdupExecute⟩
/-- Descriptor of commandCwd. -/
def cwdCmd : CmdSpec := ⟨false, true, true, commandCwdExecute⟩
/-- Descriptor of commandDele. -/
def deleCmd : CmdSpec := ⟨false, true, true, commandDeleExecute⟩
/-- Descriptor of commandFeat. -/
def featCmd : CmdSpec := ⟨false, false, false, commandFeatExecute⟩
/-- Descriptor of commandList. -/
def listCmd : CmdSpec := ⟨false, false, true, commandListExecute⟩
/-- Descriptor of commandNlst. -/
def nlstCmd : CmdSpec := ⟨false, false, true, commandNlstExecute⟩
/-- Descriptor of commandMdtm. -/
def mdtmCmd : CmdSpec := ⟨false, true, true, commandMdtmExecute⟩
/-- Descriptor of commandMkd. -/
def mkdCmd : CmdSpec := ⟨false, true, true, commandMkdExecute⟩
/-- Descriptor of commandMode. -/
def modeCmd : CmdSpec := ⟨false, true, true, commandModeExecute⟩
/-- Descriptor of commandNoop. -/
def noopCmd : CmdSpec := ⟨false, false, false, commandNoopExecute⟩
/-- Descriptor of commandOpts. -/
def optsCmd : CmdSpec := ⟨false, false, false, commandOptsExecute⟩
/-- Descriptor of commandPass. -/
def passCmd : CmdSpec := ⟨false, true, false, commandPassExecute⟩
/-- Descriptor of commandPwd. -/
def pwdCmd : CmdSpec := ⟨false, false, true, commandPwdExecute⟩
/-- Descriptor of commandQuit. -/
def quitCmd : CmdSpec := ⟨false, false, false, commandQuitExecute⟩
/-- Descriptor of commandRetr. -/
def retrCmd : CmdSpec := ⟨false, true, true, commandRetrExecute⟩
/-- Descriptor of commandRest. -/
def restCmd : CmdSpec := ⟨false, true, true, commandRestExecute⟩
/-- Descriptor of commandRnfr. -/
def rnfrCmd : CmdSpec := ⟨false, true, true, commandRnfrExecute⟩
/-- Descriptor of commandRnto. -/
def rntoCmd : CmdSpec := ⟨false, true, true, commandRntoExecute⟩
/-- Descriptor of commandRmd. -/
def rmdCmd : CmdSpec := ⟨false, true, true, commandRmdExecute⟩
/-- Descriptor of commandSize. -/
def sizeCmd : CmdSpec := ⟨false, true, true, commandSizeExecute⟩
/-- Descriptor of commandStor. -/
def storCmd : CmdSpec := ⟨false, true, true, commandStorExecute⟩
/-- Descriptor of commandStru. -/
def struCmd : CmdSpec := ⟨false, true, true, commandStruExecute⟩
/-- Descriptor of commandSyst. -/
def systCmd : CmdSpec := ⟨false, false, true, commandSystExecute⟩
/-- Descriptor of commandType. -/
def typeCmd : CmdSpec := ⟨false, false, true, commandTypeExecute⟩
/-- Descriptor of commandUser. -/
def userCmd : CmdSpec := ⟨false, true, false, commandUserExecute⟩

/-- Embedding of the static commands map: lookup of the uppercase verb,
including the four legacy X aliases. -/
def commands (verb : String) : Option CmdSpec :=
  if verb = "ALLO" then some alloCmd
  else if verb = "APPE" then some appeCmd
  else if verb = "CDUP" then some cdupCmd
  else if verb = "CWD" then some cwdCmd
  else if verb = "DELE" then some deleCmd
  else if verb = "FEAT" then some featCmd
  else if verb = "LIST" then some listCmd
  else if verb = "NLST" then some nlstCmd
  else if verb = "MDTM" then some mdtmCmd
  else if verb = "MKD" then some mkdCmd
  else if verb = "MODE" then some modeCmd
  else if verb = "NOOP" then some noopCmd
  else if verb = "OPTS" then some optsCmd
  else if verb = "PASS" then some passCmd
  else if verb = "PWD" then some pwdCmd
  else if verb = "QUIT" then some quitCmd
  else if verb = "RETR" then some retrCmd
  else if verb = "REST" then some restCmd
  else if verb = "RNFR" then some rnfrCmd
  else if verb = "RNTO" then some rntoCmd
  else if verb = "RMD" then some rmdCmd
  else if verb = "SIZE" then some sizeCmd
  else if verb = "STOR" then some storCmd
  else if verb = "STRU" then some struCmd
  else if verb = "SYST" then some systCmd
  else if verb = "TYPE" then some typeCmd
  else if verb = "USER" then some userCmd
  else if verb = "XCUP" then some cdupCmd
  else if verb = "XCWD" then some cwdCmd
  else if verb = "XPWD" then some pwdCmd
  else if verb = "XRMD" then some rmdCmd
  else none

/-- Embedding of SubConn.parseLine: strip CR and LF from the line ends,
split at the first space into verb and parameter, and trim the
parameter. -/
def parseLine (line : String) : String × String :=
  match goSplitN2 (String.mk (goTrimCRLF line.data)) ' ' with
  | [a] => (a, "")
  | [a, b] => (a, String.mk (goTrimSpace b.data))
  | _ => ("", "")

/-- Embedding of SubConn.receiveLine: registry lookup of the uppercase
verb, the 502 for an unknown verb, then the required-parameter test
(553) before the required-authentication test (530), and only then the
handler. -/
def receiveLine (env : Env) (st : St) (line : String) : Outcome :=
  let parsedL := parseLine line
  match commands (goToUpper parsedL.1) with
  | none => .ok st [.reply 502 "Command not found"]
  | some cmdObj =>
    if cmdObj.requireParam && parsedL.2 = "" then
      .ok st [.reply 553 "action aborted, required param missing"]
    else if cmdObj.requireAuth && st.sub.user = "" then
      .ok st [.reply 530 "not logged in"]
    else cmdObj.execute env st parsedL.2

/-- Embedding of the line loop of SubConn.Serve over a given list of
received lines: dispatch each in turn, stopping early when a handler
set closed (QUIT) or the process panicked. -/
def runLines (env : Env) : St → List String → St
  | st, [] => st
  | st, l :: ls =>
    match receiveLine env st l with
    | .ok st1 _ => if st1.sub.closed then st1 else runLines env st1 ls
    | .panic st1 _ _ => st1

/-! ## Concrete fixtures used by witnesses and counterexamples -/

/-- Sample directory FileInfo. -/
def infoDirW : FileInfo := ⟨"d", 0, true, "20180101120000"⟩

/-- Sample regular file FileInfo. -/
def infoFileW : FileInfo := ⟨"f.txt", 900, false, "20180101120000"⟩

/-- A driver whose operations all succeed; PutFile on a nil stream
reports an error, as a read from a nil stream surfaces in the driver. -/
def driverW : Driver :=
  ⟨fun _ => none, fun _ => .ok (some infoDirW), fun _ => .ok [infoFileW],
   fun _ => none, fun _ => none, fun _ _ => none, fun _ => none,
   fun _ _ => .ok (900, 0),
   fun _ s _ => match s with | some _ => .ok 42 | none => .error ⟨"nil stream"⟩⟩

/-- A driver whose Stat returns a nil FileInfo with a nil error. -/
def driverNilStatW : Driver :=
  ⟨fun _ => none, fun _ => .ok none, fun _ => .ok [infoFileW],
   fun _ => none, fun _ => none, fun _ _ => none, fun _ => none,
   fun _ _ => .ok (900, 0), fun _ _ _ => .ok 42⟩

/-- A driver whose ChangeDir always fails. -/
def driverCwdErrW : Driver :=
  ⟨fun _ => some ⟨"denied"⟩, fun _ => .ok (some infoDirW), fun _ => .ok [infoFileW],
   fun _ => none, fun _ => none, fun _ _ => none, fun _ => none,
   fun _ _ => .ok (900, 0), fun _ _ _ => .ok 42⟩

/-- Environment over the all-succeeding driver, with a three-byte
detailed listing and a one-byte short listing. -/
def envW : Env :=
  ⟨driverW, fun _ _ => .ok true, fun _ => .ok 900,
   fun _ => ['a', 'b', 'c'], fun _ => ['x'], "Extensions supported:\n UTF8\n"⟩

/-- Environment over the nil-Stat driver. -/
def envNilStatW : Env :=
  ⟨driverNilStatW, fun _ _ => .ok true, fun _ => .ok 900,
   fun _ => ['a', 'b', 'c'], fun _ => ['x'], "Extensions supported:\n UTF8\n"⟩

/-- Environment over the failing-ChangeDir driver. -/
def envCwdErrW : Env :=
  ⟨driverCwdErrW, fun _ _ => .ok true, fun _ => .ok 900,
   fun _ => ['a', 'b', 'c'], fun _ => ['x'], "Extensions supported:\n UTF8\n"⟩

/-- An unauthenticated fresh dialog state. -/
def subFreshW : SubConn := ⟨"/", "", "", "", 0, false, false⟩

/-- An authenticated dialog state. -/
def subAuthW : SubConn := ⟨"/", "", "admin", "", 0, false, false⟩

/-- Fresh machine state: empty stream map, no pending inbound streams,
one outbound stream with id three available. -/
def stFreshW : St := ⟨subFreshW, [], [], [.ok ⟨3⟩]⟩

/-- Authenticated machine state with the same stream situation. -/
def stAuthW : St := ⟨subAuthW, [], [], [.ok ⟨3⟩]⟩

/-- Authenticated machine state with a staged restart offset of five. -/
def stOffsetW : St := ⟨⟨"/", "", "admin", "", 5, false, false⟩, [], [], [.ok ⟨3⟩]⟩

/-! ## Lexical path theory for the sanitiser -/

/-- Unfolding lemma for splitSlash on a cons. -/
theorem splitSlash_cons (c : Char) (cs : List Char) :
    splitSlash (c :: cs) =
      match splitSlash cs with
      | [] => [[]]
      | w :: ws => if c = '/' then [] :: w :: ws else (c :: w) :: ws := rfl

/-- splitSlash never returns the empty list. -/
theorem splitSlash_ne_nil (l : List Char) : splitSlash l ≠ [] := by
  cases l with
  | nil => simp [splitSlash]
  | cons c cs =>
    rw [splitSlash_cons]
    cases h : splitSlash cs with
    | nil => simp
    | cons w ws => by_cases hc : c = '/' <;> simp [hc]

/-- Splitting after a leading slash prepends an empty component. -/
theorem splitSlash_slash_cons (t : List Char) :
    splitSlash ('/' :: t) = [] :: splitSlash t := by
  rw [splitSlash_cons]
  cases h : splitSlash t with
  | nil => exact absurd h (splitSlash_ne_nil t)
  | cons w ws => simp

/-- Splitting after prepending a slash-free run extends the first
component. -/
theorem splitSlash_append (w : List Char) (hw : '/' ∉ w) :
    ∀ t u us, splitSlash t = u :: us → splitSlash (w ++ t) = (w ++ u) :: us := by
  induction w with
  | nil => intro t u us h; simpa using h
  | cons c w' ih =>
    intro t u us h
    have hc : c ≠ '/' := by intro hh; exact hw (by simp [hh])
    have h' := ih (by intro hh; exact hw (List.mem_cons_of_mem _ hh)) t u us h
    show splitSlash (c :: (w' ++ t)) = ((c :: w') ++ u) :: us
    rw [splitSlash_cons, h']
    simp [hc]

/-- A slash-free list is its own single component. -/
theorem splitSlash_slashfree_eq (w : List Char) (hw : '/' ∉ w) : splitSlash w = [w] := by
  have h := splitSlash_append w hw [] [] [] rfl
  simpa using h

/-- Round trip: joining slash-free components and splitting again gives
the components back. -/
theorem splitSlash_joinSlash : ∀ parts : List (List Char),
    (∀ w ∈ parts, '/' ∉ w) → parts ≠ [] → splitSlash (joinSlash parts) = parts
  | [], _, hne => absurd rfl hne
  | [p], hall, _ => by
    simpa [joinSlash] using splitSlash_slashfree_eq p (hall p (by simp))
  | p :: q :: qs, hall, _ => by
    have hrec := splitSlash_joinSlash (q :: qs)
      (fun w hw => hall w (List.mem_cons_of_mem _ hw)) (by simp)
    have hsplit : splitSlash ('/' :: joinSlash (q :: qs)) = [] :: q :: qs := by
      rw [splitSlash_slash_cons, hrec]
    have happ := splitSlash_append p (hall p (by simp)) ('/' :: joinSlash (q :: qs)) [] (q :: qs) hsplit
    show splitSlash (p ++ '/' :: joinSlash (q :: qs)) = p :: q :: qs
    simpa using happ

/-- Every component produced by splitSlash is slash free. -/
theorem splitSlash_slashfree (l : List Char) : ∀ w ∈ splitSlash l, '/' ∉ w := by
  induction l with
  | nil => intro w hw; simp [splitSlash] at hw; simp [hw]
  | cons c cs ih =>
    intro w hw
    rw [splitSlash_cons] at hw
    cases h : splitSlash cs with
    | nil => exact absurd h (splitSlash_ne_nil cs)
    | cons u us =>
      rw [h] at hw
      change w ∈ (if c = '/' then [] :: u :: us else (c :: u) :: us) at hw
      by_cases hc : c = '/'
      · rw [if_pos hc] at hw
        rcases List.mem_cons.mp hw with h1 | h2
        · simp [h1]
        · exact ih w (by rw [h]; exact h2)
      · rw [if_neg hc] at hw
        rcases List.mem_cons.mp hw with h1 | h2
        · subst h1
          intro hmem
          rcases List.mem_cons.mp hmem with h3 | h4
          · exact hc h3.symm
          · exact ih u (by rw [h]; exact List.mem_cons_self u us) h4
        · exact ih w (by rw [h]; exact List.mem_cons_of_mem _ h2)

/-- A good output component of the cleaning loop: non-empty, not a dot,
not a dot-dot, and slash free. -/
def goodComp (w : List Char) : Prop :=
  w ≠ [] ∧ w ≠ ['.'] ∧ w ≠ ['.', '.'] ∧ '/' ∉ w

/-- In rooted mode the cleaning loop only ever emits good components
(dot-dot never survives at the root). -/
theorem cleanParts_good : ∀ cs : List (List Char), ∀ acc : List (List Char),
    (∀ w ∈ acc, goodComp w) → (∀ w ∈ cs, '/' ∉ w) →
    ∀ w ∈ cleanParts true acc cs, goodComp w := by
  intro cs
  induction cs with
  | nil =>
    intro acc hacc _ w hw
    unfold cleanParts at hw
    rw [List.mem_reverse] at hw
    exact hacc w hw
  | cons c cs ih =>
    intro acc hacc hcs w hw
    unfold cleanParts at hw
    by_cases h1 : c = [] ∨ c = ['.']
    · rw [if_pos h1] at hw
      exact ih acc hacc (fun u hu => hcs u (List.mem_cons_of_mem _ hu)) w hw
    · rw [if_neg h1] at hw
      by_cases h2 : c = ['.', '.']
      · rw [if_pos h2] at hw
        cases hACC : acc with
        | nil =>
          rw [hACC] at hw
          change w ∈ cleanParts true [] cs at hw
          exact ih [] (by simp) (fun u hu => hcs u (List.mem_cons_of_mem _ hu)) w hw
        | cons top rest =>
          rw [hACC] at hw
          change w ∈ (if top = ['.', '.'] then cleanParts true (['.', '.'] :: top :: rest) cs
            else cleanParts true rest cs) at hw
          have htop : goodComp top := hacc top (by rw [hACC]; exact List.mem_cons_self top rest)
          rw [if_neg htop.2.2.1] at hw
          exact ih rest
            (fun u hu => hacc u (by rw [hACC]; exact List.mem_cons_of_mem _ hu))
            (fun u hu => hcs u (List.mem_cons_of_mem _ hu)) w hw
      · rw [if_neg h2] at hw
        refine ih (c :: acc) ?_ (fun u hu => hcs u (List.mem_cons_of_mem _ hu)) w hw
        intro u hu
        rcases List.mem_cons.mp hu with h3 | h4
        · subst h3
          exact ⟨fun h => h1 (Or.inl h), fun h => h1 (Or.inr h), h2,
            hcs u (List.mem_cons_self u cs)⟩
        · exact hacc u h4

/-- No two adjacent characters are both slashes. -/
def noAdjSlash : List Char → Bool
  | [] => true
  | [_] => true
  | c1 :: c2 :: rest => !(c1 = '/' && c2 = '/') && noAdjSlash (c2 :: rest)

/-- The double-slash replacement fixes any list without adjacent
slashes. -/
theorem replaceDoubleSlash_id : ∀ l, noAdjSlash l = true → replaceDoubleSlash l = l
  | [], _ => rfl
  | [_], _ => rfl
  | c1 :: c2 :: rest, h => by
    simp only [noAdjSlash, Bool.and_eq_true, Bool.not_eq_true', Bool.and_eq_false_iff,
      decide_eq_false_iff_not] at h
    have hna : ¬(c1 = '/' ∧ c2 = '/') := by
      rcases h.1 with h1 | h1 <;> intro hpair
      · exact h1 hpair.1
      · exact h1 hpair.2
    simp only [replaceDoubleSlash, if_neg hna]
    rw [replaceDoubleSlash_id (c2 :: rest) h.2]

/-- A slash-free list has no adjacent slashes. -/
theorem noAdjSlash_of_slashfree : ∀ l, '/' ∉ l → noAdjSlash l = true
  | [], _ => rfl
  | [_], _ => rfl
  | c1 :: c2 :: rest, h => by
    have h1 : c1 ≠ '/' := by intro hh; exact h (by simp [hh])
    have h2 : '/' ∉ c2 :: rest := by intro hh; exact h (List.mem_cons_of_mem _ hh)
    simp only [noAdjSlash, Bool.and_eq_true]
    exact ⟨by simp [h1], noAdjSlash_of_slashfree (c2 :: rest) h2⟩

/-- Prepending a non-slash character preserves no-adjacent-slashes. -/
theorem noAdjSlash_cons (c : Char) (l : List Char) (hc : c ≠ '/')
    (hl : noAdjSlash l = true) : noAdjSlash (c :: l) = true := by
  cases l with
  | nil => rfl
  | cons d t =>
    simp only [noAdjSlash, Bool.and_eq_true]
    exact ⟨by simp [hc], hl⟩

/-- Prepending a slash-free run preserves no-adjacent-slashes. -/
theorem noAdjSlash_append : ∀ w : List Char, '/' ∉ w →
    ∀ t, noAdjSlash t = true → noAdjSlash (w ++ t) = true
  | [], _, _, ht => ht
  | c :: w', hw, t, ht => by
    have hc : c ≠ '/' := by intro hh; exact hw (by simp [hh])
    exact noAdjSlash_cons c (w' ++ t) hc
      (noAdjSlash_append w' (by intro hh; exact hw (List.mem_cons_of_mem _ hh)) t ht)

/-- A slash followed by a non-slash head stays adjacent-slash free. -/
theorem noAdjSlash_slash_cons (c : Char) (t : List Char) (hc : c ≠ '/')
    (h : noAdjSlash (c :: t) = true) : noAdjSlash ('/' :: c :: t) = true := by
  simp only [noAdjSlash, Bool.and_eq_true]
  exact ⟨by simp [hc], h⟩

/-- A slash-prefixed join of non-empty slash-free components has no
adjacent slashes. -/
theorem noAdjSlash_root_join : ∀ parts : List (List Char),
    (∀ w ∈ parts, w ≠ [] ∧ '/' ∉ w) → noAdjSlash ('/' :: joinSlash parts) = true
  | [], _ => rfl
  | [p], h => by
    obtain ⟨hne, hfree⟩ := h p (by simp)
    obtain ⟨c, p', rfl⟩ := List.exists_cons_of_ne_nil hne
    have hc : c ≠ '/' := by intro hh; exact hfree (by simp [hh])
    show noAdjSlash ('/' :: c :: p') = true
    exact noAdjSlash_slash_cons c p' hc (noAdjSlash_of_slashfree (c :: p') hfree)
  | p :: q :: qs, h => by
    obtain ⟨hne, hfree⟩ := h p (by simp)
    obtain ⟨c, p', rfl⟩ := List.exists_cons_of_ne_nil hne
    have hc : c ≠ '/' := by intro hh; exact hfree (by simp [hh])
    have hrest : noAdjSlash ('/' :: joinSlash (q :: qs)) = true :=
      noAdjSlash_root_join (q :: qs) (fun w hw => h w (List.mem_cons_of_mem _ hw))
    have hfree' : '/' ∉ p' := by intro hh; exact hfree (List.mem_cons_of_mem _ hh)
    have hmid : noAdjSlash (p' ++ '/' :: joinSlash (q :: qs)) = true :=
      noAdjSlash_append p' hfree' _ hrest
    have hbody : noAdjSlash (c :: (p' ++ '/' :: joinSlash (q :: qs))) = true :=
      noAdjSlash_cons c _ hc hmid
    show noAdjSlash ('/' :: ((c :: p') ++ '/' :: joinSlash (q :: qs))) = true
    exact noAdjSlash_slash_cons c _ hc hbody

/-- Cleaning a rooted path produces a slash followed by the good
components of the cleaning loop. -/
theorem cleanChars_rooted (t : List Char) :
    ∃ parts : List (List Char),
      cleanChars ('/' :: t) = '/' :: joinSlash parts ∧ ∀ w ∈ parts, goodComp w := by
  refine ⟨cleanParts true [] (splitSlash ('/' :: t)), ?_, ?_⟩
  · simp [cleanChars]
  · exact cleanParts_good _ [] (by simp) (splitSlash_slashfree _)

/-- The cleaned rooted path starts with a slash, has no dot-dot
component, and is a fixed point of the double-slash replacement. -/
theorem rooted_clean_props (t : List Char) :
    (∃ r, cleanChars ('/' :: t) = '/' :: r) ∧
    ['.', '.'] ∉ splitSlash (cleanChars ('/' :: t)) ∧
    replaceDoubleSlash (cleanChars ('/' :: t)) = cleanChars ('/' :: t) := by
  obtain ⟨parts, heq, hgood⟩ := cleanChars_rooted t
  refine ⟨⟨joinSlash parts, heq⟩, ?_, ?_⟩
  · rw [heq]
    cases hp : parts with
    | nil => simp [joinSlash, splitSlash_cons, splitSlash]
    | cons p ps =>
      rw [splitSlash_slash_cons,
        splitSlash_joinSlash (p :: ps) (fun w hw => (hgood w (hp ▸ hw)).2.2.2) (by simp)]
      intro hmem
      rcases List.mem_cons.mp hmem with h1 | h2
      · simp at h1
      · exact (hgood _ (hp ▸ h2)).2.2.1 rfl
  · rw [heq]
    exact replaceDoubleSlash_id _
      (noAdjSlash_root_join parts (fun w hw => ⟨(hgood w hw).1, (hgood w hw).2.2.2⟩))

/-- The separator replacement is the identity on the POSIX build. -/
theorem replaceSepSlash_id : ∀ l, replaceSepSlash l = l
  | [] => rfl
  | c :: rest => by
    simp only [replaceSepSlash]
    rw [replaceSepSlash_id rest]
    by_cases h : c = '/' <;> simp [h]

/-- With a rooted namePrefix, every branch of buildPath cleans a rooted
candidate, so the result starts with a slash and has no dot-dot
component. -/
theorem buildPathChars_rooted (pt f : List Char) :
    (∃ r, buildPathChars ('/' :: pt) f = '/' :: r) ∧
    ['.', '.'] ∉ splitSlash (buildPathChars ('/' :: pt) f) := by
  have main : ∀ t : List Char,
      (∃ r, replaceSepSlash (replaceDoubleSlash (cleanChars ('/' :: t))) = '/' :: r) ∧
      ['.', '.'] ∉ splitSlash (replaceSepSlash (replaceDoubleSlash (cleanChars ('/' :: t)))) := by
    intro t
    obtain ⟨hstart, hdd, hrds⟩ := rooted_clean_props t
    rw [hrds, replaceSepSlash_id]
    exact ⟨hstart, hdd⟩
  unfold buildPathChars
  by_cases h1 : f ≠ [] ∧ f.headD ' ' = '/'
  · rw [if_pos h1]
    obtain ⟨c, f', rfl⟩ := List.exists_cons_of_ne_nil h1.1
    have hc : c = '/' := by simpa using h1.2
    subst hc
    exact main f'
  · rw [if_neg h1]
    by_cases h2 : f ≠ [] ∧ f ≠ ['-', 'a']
    · rw [if_pos h2]
      show (∃ r, replaceSepSlash (replaceDoubleSlash (cleanChars ('/' :: (pt ++ '/' :: f)))) = '/' :: r) ∧ _
      exact main (pt ++ '/' :: f)
    · rw [if_neg h2]
      exact main pt

/-! ## Claim theorems -/

/-- C1 (code bug evidence): a STOR whose parameter is the malformed
"5 /x" (id five has remainder one modulo four) does not stop at the 501
reply: the handler goes on to write the 150 reply, the 425 of the failed
stream acquisition and the driver-error 450, four replies in all, because
the source never returns after writeMessage(501, ...). -/
theorem stor_malformed_writes_four_replies :
    (commandStorExecute envW stAuthW "5 /x").trace =
      [.reply 501 "Stream ID has not a valid value for a unidirectional stream from the client.",
       .reply 150 "Data transfer starting",
       .reply 425 "Can't open data stream.",
       .reply 450 "error during transfer: nil stream"] ∧
    replyCount (commandStorExecute envW stAuthW "5 /x").trace = 4 := by
  decide

/-- C2 (code bug evidence): handler execution is not panic free — NLST
panics on a nil FileInfo with nil error (no nil check before
info.IsDir()), and STOR with a one-token parameter panics indexing
params at one; in both cases replies were written or skipped rather
than a failure reply being guaranteed. -/
theorem nlst_nil_stat_and_stor_one_token_panic :
    (commandNlstExecute envNilStatW stAuthW "x").isPanic = true ∧
    (commandStorExecute envW stAuthW "onlyonepart").isPanic = true := by
  decide

/-- C3 (counterexample): the claim quantifies over every namePrefix, but
with namePrefix dot-dot and an empty filename buildPath returns dot-dot
itself, which neither begins with a slash nor is free of dot-dot
components. -/
theorem buildPath_relative_prefix_counterexample :
    buildPath ".." "" = ".." ∧
    startsWithSlash (buildPath ".." "") = false ∧
    ¬ dotDotFree (buildPath ".." "") := by
  refine ⟨by decide, by decide, ?_⟩
  intro h
  exact h (by decide)

/-- C3 (amended): for every namePrefix that begins with a slash — the
invariant the sub-connection maintains, starting from the initial slash
prefix — buildPath returns a path that begins with a slash and contains
no dot-dot component after normalisation (separators are slashes by
construction of the embedding); and the normative examples hold. -/
theorem buildPath_absolute_and_dotdot_free :
    (∀ namePrefix filename : String, startsWithSlash namePrefix = true →
      startsWithSlash (buildPath namePrefix filename) = true ∧
      dotDotFree (buildPath namePrefix filename)) ∧
    buildPath "/" "/" = "/" ∧
    buildPath "/" "one.txt" = "/one.txt" ∧
    buildPath "/" "/../../../../etc/passwd" = "/etc/passwd" ∧
    buildPath "/files" "" = "/files" ∧
    buildPath "/files" "-a" = "/files" := by
  refine ⟨?_, by decide, by decide, by decide, by decide, by decide⟩
  intro p f hp
  obtain ⟨pt, hpd⟩ : ∃ pt, p.data = '/' :: pt := by
    unfold startsWithSlash at hp
    split at hp
    · next heq => exact ⟨_, heq⟩
    · exact absurd hp (by simp)
  have hbp : buildPath p f = String.mk (buildPathChars ('/' :: pt) f.data) := by
    unfold buildPath
    rw [hpd]
  obtain ⟨⟨r, hr⟩, hdd⟩ := buildPathChars_rooted pt f.data
  constructor
  · rw [hbp, hr]
    rfl
  · unfold dotDotFree
    rw [hbp]
    exact hdd

/-- C3 (witness): the amended theorem applied at a concrete rooted
prefix. -/
theorem buildPath_absolute_and_dotdot_free_witness :
    startsWithSlash (buildPath "/files" "a/../../b") = true ∧
    dotDotFree (buildPath "/files" "a/../../b") :=
  buildPath_absolute_and_dotdot_free.1 "/files" "a/../../b" (by decide)

/-- Machine state whose session has one pending inbound unidirectional
stream with id two and an empty inbound map. -/
def stRecvW : St := ⟨subAuthW, [], [⟨2⟩], []⟩

/-- Helper for C4: when the accept loop of getReceiveDataStream returns
a stream, that stream's id is the wanted id (the loop only returns a
stream on the equality branch). -/
theorem acceptRecvLoop_ok_id (pending : List RecvStream) :
    ∀ (m : List (Int × RecvStream)) (wanted : Int) (s : RecvStream),
      (acceptRecvLoop pending m wanted).1 = .ok s → s.id = wanted := by
  induction pending with
  | nil => intro m wanted s h; simp [acceptRecvLoop] at h
  | cons hd tl ih =>
    intro m wanted s h
    unfold acceptRecvLoop at h
    by_cases h1 : hd.id > wanted
    · simp [h1] at h
    · by_cases h2 : hd.id = wanted
      · simp [h1, h2] at h
        subst h
        exact h2
      · simp [h1, h2] at h
        exact ih _ wanted s h

/-- C4: provided every map entry is keyed by its stream's own id (which
is how the code inserts, starting from the empty map), Conn's
getReceiveDataStream never answers with a stream whose id differs from
the wanted one: it either returns the wanted id or an error. -/
theorem getReceiveDataStream_id_correct (st : St) (wanted : Int)
    (hinv : ∀ k s, lookupRecv st.recvMap k = some s → s.id = k) :
    ∀ s st1, getReceiveDataStream st wanted = (.ok s, st1) → s.id = wanted := by
  intro s st1 h
  unfold getReceiveDataStream at h
  cases hl : lookupRecv st.recvMap wanted with
  | some s0 =>
    rw [hl] at h
    simp only [Prod.mk.injEq, Except.ok.injEq] at h
    obtain ⟨hs, -⟩ := h
    subst hs
    exact hinv wanted s0 hl
  | none =>
    rw [hl] at h
    cases hrun : acceptRecvLoop st.recvPending st.recvMap wanted with
    | mk r rest =>
      rw [hrun] at h
      simp only [Prod.mk.injEq] at h
      obtain ⟨hs, -⟩ := h
      exact acceptRecvLoop_ok_id st.recvPending st.recvMap wanted s (by rw [hrun]; exact hs)

/-- C4 (witness): on the empty map with pending stream id two, asking
for id two succeeds and indeed yields the stream with id two. -/
theorem getReceiveDataStream_id_correct_witness : (⟨2⟩ : RecvStream).id = 2 :=
  getReceiveDataStream_id_correct stRecvW 2
    (by intro k s h; simp [stRecvW, lookupRecv] at h)
    ⟨2⟩ (getReceiveDataStream stRecvW 2).2 (by decide)

/-- C6: on every exit path of the RETR handler — driver error, data
stream open failure, body copy failure, or success — the final state
has a zero restart offset and a cleared append flag, for every prior
state, parameter and oracle behaviour. -/
theorem retr_always_resets_offset_and_append (env : Env) (st : St) (param : String) :
    ((commandRetrExecute env st param).finalSt).sub.lastFilePos = 0 ∧
    ((commandRetrExecute env st param).finalSt).sub.appendData = false := by
  unfold commandRetrExecute
  cases hg : env.driver.getFile (buildPath st.sub.namePrefix param) st.sub.lastFilePos with
  | error e => simp [hg, Outcome.finalSt, retrDeferReset]
  | ok v =>
    obtain ⟨bytes, reader⟩ := v
    cases hs : getNewSendDataStream st with
    | mk r st1 =>
      cases r with
      | error e => simp [hg, hs, Outcome.finalSt, retrDeferReset]
      | ok stream =>
        cases hc : env.ioCopy reader with
        | error e => simp [hg, hs, hc, Outcome.finalSt, retrDeferReset]
        | ok n => simp [hg, hs, hc, Outcome.finalSt, retrDeferReset]

/-- C8 (counterexample): with parameter "UTF8 MAYBE" — two tokens, token
zero UTF8, token one neither ON nor OFF — the code replies 550
"Unsupported non-utf8 mode", not the 550 "Unknow params" the claim
assigns to every shape other than ON and OFF. -/
theorem opts_other_token_not_unknow_params :
    commandOptsExecute envW stAuthW "UTF8 MAYBE" =
      .ok stAuthW [.reply 550 "Unsupported non-utf8 mode"] ∧
    commandOptsExecute envW stAuthW "UTF8 MAYBE" ≠
      .ok stAuthW [.reply 550 "Unknow params"] := by
  decide

/-- C8 (amended): OPTS replies 550 "Unknow params" when the parameter
does not split into exactly two whitespace tokens or token zero
upper-cased is not UTF8; with two tokens and token zero UTF8 it replies
200 "UTF8 mode enabled" when token one upper-cased is ON and 550
"Unsupported non-utf8 mode" for every other token one (OFF included);
the state is never changed. -/
theorem opts_reply_classification (env : Env) (st : St) (param : String) :
    ((goFields param).length ≠ 2 →
      commandOptsExecute env st param = .ok st [.reply 550 "Unknow params"]) ∧
    (∀ p0 p1, goFields param = [p0, p1] →
      (goToUpper p0 ≠ "UTF8" →
        commandOptsExecute env st param = .ok st [.reply 550 "Unknow params"]) ∧
      (goToUpper p0 = "UTF8" → goToUpper p1 = "ON" →
        commandOptsExecute env st param = .ok st [.reply 200 "UTF8 mode enabled"]) ∧
      (goToUpper p0 = "UTF8" → goToUpper p1 ≠ "ON" →
        commandOptsExecute env st param = .ok st [.reply 550 "Unsupported non-utf8 mode"])) := by
  constructor
  · intro hlen
    unfold commandOptsExecute
    match hf : goFields param with
    | [] => rfl
    | [_] => rfl
    | [p0, p1] => exact absurd (by rw [hf]; rfl) hlen
    | _ :: _ :: _ :: _ => rfl
  · intro p0 p1 hf
    refine ⟨fun h0 => ?_, fun h0 h1 => ?_, fun h0 h1 => ?_⟩
    · unfold commandOptsExecute
      rw [hf]
      simp [h0]
    · unfold commandOptsExecute
      rw [hf]
      simp [h0, h1]
    · unfold commandOptsExecute
      rw [hf]
      simp [h0, h1]

/-- C8 (witness for the amended theorem): concrete instances of each
branch. -/
theorem opts_reply_classification_witness :
    commandOptsExecute envW stAuthW "UTF8" = .ok stAuthW [.reply 550 "Unknow params"] ∧
    commandOptsExecute envW stAuthW "MODE ON" = .ok stAuthW [.reply 550 "Unknow params"] ∧
    commandOptsExecute envW stAuthW "utf8 on" = .ok stAuthW [.reply 200 "UTF8 mode enabled"] ∧
    commandOptsExecute envW stAuthW "UTF8 OFF" =
      .ok stAuthW [.reply 550 "Unsupported non-utf8 mode"] := by
  refine ⟨?_, ?_, ?_, ?_⟩
  · exact (opts_reply_classification envW stAuthW "UTF8").1 (by decide)
  · exact (((opts_reply_classification envW stAuthW "MODE ON").2 "MODE" "ON"
      (by decide)).1 (by decide))
  · exact ((((opts_reply_classification envW stAuthW "utf8 on").2 "utf8" "on"
      (by decide)).2).1 (by decide) (by decide))
  · exact ((((opts_reply_classification envW stAuthW "UTF8 OFF").2 "UTF8" "OFF"
      (by decide)).2).2 (by decide) (by decide))

/-- C9 (counterexample): a REST parameter that overflows int64 fails the
parse, yet lastFilePos is overwritten with the clamped maximum the Go
parse returns, not with zero: from a staged offset of five it becomes
the int64 maximum. -/
theorem rest_range_error_clamps_offset :
    commandRestExecute envW stOffsetW "9223372036854775808" =
      .ok { stOffsetW with sub := { stOffsetW.sub with lastFilePos := 9223372036854775807 } }
        [.reply 551 "File not available"] ∧
    ((commandRestExecute envW stOffsetW "9223372036854775808").finalSt).sub.lastFilePos ≠ 0 := by
  decide

/-- C9 (amended): when REST's parameter fails the signed 64-bit decimal
parse, the handler replies 551 and overwrites lastFilePos with the
value the failed parse returns — zero for a syntax error, the clamped
int64 extreme for a range error — while appendData and every other
field stay unchanged. -/
theorem rest_parse_error_overwrites_offset (env : Env) (st : St) (param : String)
    (h : (parseInt10_64 param).2 = false) :
    commandRestExecute env st param =
      .ok { st with sub := { st.sub with lastFilePos := (parseInt10_64 param).1 } }
        [.reply 551 "File not available"] := by
  unfold commandRestExecute
  simp [h]

/-- C9 (witness): the amended theorem applied to a syntax-error
parameter. -/
theorem rest_parse_error_overwrites_offset_witness :
    commandRestExecute envW stOffsetW "abc" =
      .ok { stOffsetW with sub :=
        { stOffsetW.sub with lastFilePos := (parseInt10_64 "abc").1 } }
        [.reply 551 "File not available"] :=
  rest_parse_error_overwrites_offset envW stOffsetW "abc" (by decide)

/-- C10: when ChangeDir on the built path fails, CWD replies 550 and the
whole sub-connection state is untouched; when it succeeds, the state
changes exactly by namePrefix becoming the built path, with the 250
reply. -/
theorem cwd_frame_effect (env : Env) (st : St) (param : String) :
    (∀ e, env.driver.changeDir (buildPath st.sub.namePrefix param) = some e →
      commandCwdExecute env st param =
        .ok st [.reply 550 ("Directory change to " ++ buildPath st.sub.namePrefix param
          ++ " failed: " ++ e.msg)]) ∧
    (env.driver.changeDir (buildPath st.sub.namePrefix param) = none →
      commandCwdExecute env st param =
        .ok { st with sub := { st.sub with namePrefix := buildPath st.sub.namePrefix param } }
          [.reply 250 ("Directory changed to " ++ buildPath st.sub.namePrefix param)]) := by
  constructor
  · intro e he
    simp [commandCwdExecute, he]
  · intro he
    simp [commandCwdExecute, he]

/-- C10 (witness): the failing branch leaves the state equal to the
input state, the succeeding branch rewrites namePrefix. -/
theorem cwd_frame_effect_witness :
    commandCwdExecute envCwdErrW stAuthW "docs" =
      .ok stAuthW [.reply 550 ("Directory change to " ++ buildPath "/" "docs"
        ++ " failed: " ++ "denied")] ∧
    commandCwdExecute envW stAuthW "docs" =
      .ok { stAuthW with sub := { stAuthW.sub with namePrefix := buildPath "/" "docs" } }
        [.reply 250 ("Directory changed to " ++ buildPath "/" "docs")] :=
  ⟨(cwd_frame_effect envCwdErrW stAuthW "docs").1 ⟨"denied"⟩ (by decide),
   (cwd_frame_effect envW stAuthW "docs").2 (by decide)⟩

/-- C7 (counterexample): a concrete successful LIST writes the 150
reply, the listing bytes, the close, and then a 226 reply whose text is
the source's "Closing data strea,, sent 3 bytes" — not the claimed
"Closing data stream, sent 3 bytes". -/
theorem list_closing_message_misspelled :
    (commandListExecute envW stAuthW "").trace =
      [.reply 150 "3 Opening ASCII mode data connection for file list",
       .dataOut 3 ['a', 'b', 'c'],
       .closeStream 3,
       .reply 226 "Closing data strea,, sent 3 bytes"] ∧
    (commandListExecute envW stAuthW "").trace ≠
      [.reply 150 "3 Opening ASCII mode data connection for file list",
       .dataOut 3 ['a', 'b', 'c'],
       .closeStream 3,
       .reply 226 "Closing data stream, sent 3 bytes"] := by
  decide

/-- C7 (amended): every LIST that reaches a successful transfer replies
150 with the stream id and the opening text, writes the detailed
listing to the stream, closes it, and replies 226 with the message
"Closing data strea,, sent n bytes" (the source misspells the word
stream there), where n is the number of listing bytes written. -/
theorem list_success_sequence (env : Env) (st : St) (param : String)
    (info : FileInfo) (files : List FileInfo) (stream : SendStream)
    (rest : List (Except GoErr SendStream))
    (hstat : env.driver.stat (buildPath st.sub.namePrefix (parseListParam param)) =
      .ok (some info))
    (hfiles : (if info.isDir then
        env.driver.listDir (buildPath st.sub.namePrefix (parseListParam param))
      else .ok [info] : Except GoErr (List FileInfo)) = .ok files)
    (hq : st.sendQueue = .ok stream :: rest) :
    commandListExecute env st param =
      .ok { st with sendQueue := rest }
        [.reply 150 (toString stream.id ++ " Opening ASCII mode data connection for file list"),
         .dataOut stream.id (env.detailed files),
         .closeStream stream.id,
         .reply 226 ("Closing data strea,, sent " ++
           toString (env.detailed files).length ++ " bytes")] := by
  simp only [commandListExecute]
  simp only [hstat, hfiles]
  unfold getNewSendDataStream
  simp only [hq]
  rfl

/-- C7 (witness): the amended theorem applied to the concrete fixture
run of the counterexample. -/
theorem list_success_sequence_witness :
    commandListExecute envW stAuthW "" =
      .ok { stAuthW with sendQueue := [] }
        [.reply 150 (toString (3 : Int) ++ " Opening ASCII mode data connection for file list"),
         .dataOut 3 (envW.detailed [infoFileW]),
         .closeStream 3,
         .reply 226 ("Closing data strea,, sent " ++
           toString (envW.detailed [infoFileW]).length ++ " bytes")] :=
  list_success_sequence envW stAuthW "" infoDirW [infoFileW] ⟨3⟩ []
    (by decide) (by decide) (by decide)

/-! ## Authentication gating machinery: no handler other than PASS ever
changes the login field -/

/-- getNewSendDataStream never touches the dialog state. -/
theorem gnsds_sub (st : St) : ((getNewSendDataStream st).2).sub = st.sub := by
  unfold getNewSendDataStream
  cases st.sendQueue <;> rfl

/-- getReceiveDataStream never touches the dialog state. -/
theorem grds_sub (st : St) (w : Int) : ((getReceiveDataStream st w).2).sub = st.sub := by
  unfold getReceiveDataStream
  cases lookupRecv st.recvMap w with
  | some s => rfl
  | none =>
    rcases acceptRecvLoop st.recvPending st.recvMap w with ⟨r, m1, p1⟩
    rfl

/-- ALLO preserves the login field. -/
theorem allo_user (env : Env) (st : St) (param : String) :
    ((commandAlloExecute env st param).finalSt).sub.user = st.sub.user := rfl

/-- APPE preserves the login field. -/
theorem appe_user (env : Env) (st : St) (param : String) :
    ((commandAppeExecute env st param).finalSt).sub.user = st.sub.user := rfl

/-- OPTS preserves the login field. -/
theorem opts_user (env : Env) (st : St) (param : String) :
    ((commandOptsExecute env st param).finalSt).sub.user = st.sub.user := by
  simp only [commandOptsExecute]
  repeat' split
  all_goals rfl

/-- FEAT preserves the login field. -/
theorem feat_user (env : Env) (st : St) (param : String) :
    ((commandFeatExecute env st param).finalSt).sub.user = st.sub.user := rfl

/-- CWD preserves the login field. -/
theorem cwd_user (env : Env) (st : St) (param : String) :
    ((commandCwdExecute env st param).finalSt).sub.user = st.sub.user := by
  simp only [commandCwdExecute]
  repeat' split
  all_goals rfl

/-- CDUP preserves the login field. -/
theorem cdup_user (env : Env) (st : St) (param : String) :
    ((commandCdupExecute env st param).finalSt).sub.user = st.sub.user :=
  cwd_user env st ".."

/-- DELE preserves the login field. -/
theorem dele_user (env : Env) (st : St) (param : String) :
    ((commandDeleExecute env st param).finalSt).sub.user = st.sub.user := by
  simp only [commandDeleExecute]
  repeat' split
  all_goals rfl

/-- LIST preserves the login field. -/
theorem list_user (env : Env) (st : St) (param : String) :
    ((commandListExecute env st param).finalSt).sub.user = st.sub.user := by
  simp only [commandListExecute, getNewSendDataStream]
  cases hq : st.sendQueue
  all_goals repeat' split
  all_goals first
    | rfl
    | (rename_i heq; injection heq with h1 h2; rw [← h2]; rfl)

/-- NLST preserves the login field. -/
theorem nlst_user (env : Env) (st : St) (param : String) :
    ((commandNlstExecute env st param).finalSt).sub.user = st.sub.user := by
  simp only [commandNlstExecute, getNewSendDataStream]
  cases hq : st.sendQueue
  all_goals repeat' split
  all_goals first
    | rfl
    | (rename_i heq; injection heq with h1 h2; rw [← h2]; rfl)

/-- MDTM preserves the login field. -/
theorem mdtm_user (env : Env) (st : St) (param : String) :
    ((commandMdtmExecute env st param).finalSt).sub.user = st.sub.user := by
  simp only [commandMdtmExecute]
  repeat' split
  all_goals rfl

/-- MKD preserves the login field. -/
theorem mkd_user (env : Env) (st : St) (param : String) :
    ((commandMkdExecute env st param).finalSt).sub.user = st.sub.user := by
  simp only [commandMkdExecute]
  repeat' split
  all_goals rfl

/-- MODE preserves the login field. -/
theorem mode_user (env : Env) (st : St) (param : String) :
    ((commandModeExecute env st param).finalSt).sub.user = st.sub.user := by
  unfold commandModeExecute
  split_ifs <;> rfl

/-- NOOP preserves the login field. -/
theorem noop_user (env : Env) (st : St) (param : String) :
    ((commandNoopExecute env st param).finalSt).sub.user = st.sub.user := rfl

/-- PWD preserves the login field. -/
theorem pwd_user (env : Env) (st : St) (param : String) :
    ((commandPwdExecute env st param).finalSt).sub.user = st.sub.user := rfl

/-- QUIT preserves the login field. -/
theorem quit_user (env : Env) (st : St) (param : String) :
    ((commandQuitExecute env st param).finalSt).sub.user = st.sub.user := rfl

/-- RETR preserves the login field. -/
theorem retr_user (env : Env) (st : St) (param : String) :
    ((commandRetrExecute env st param).finalSt).sub.user = st.sub.user := by
  unfold commandRetrExecute
  cases hg : env.driver.getFile (buildPath st.sub.namePrefix param) st.sub.lastFilePos with
  | error e => simp [hg, Outcome.finalSt, retrDeferReset]
  | ok v =>
    obtain ⟨bytes, reader⟩ := v
    cases hs : getNewSendDataStream st with
    | mk r st1 =>
      have hsub : st1.sub = st.sub := by
        have h := gnsds_sub st
        rw [hs] at h
        exact h
      cases r with
      | error e => simp [hg, hs, Outcome.finalSt, retrDeferReset, hsub]
      | ok stream =>
        cases hc : env.ioCopy reader with
        | error e => simp [hg, hs, hc, Outcome.finalSt, retrDeferReset, hsub]
        | ok n => simp [hg, hs, hc, Outcome.finalSt, retrDeferReset, hsub]

/-- REST preserves the login field. -/
theorem rest_user (env : Env) (st : St) (param : String) :
    ((commandRestExecute env st param).finalSt).sub.user = st.sub.user := by
  simp only [commandRestExecute]
  split_ifs <;> rfl

/-- RNFR preserves the login field. -/
theorem rnfr_user (env : Env) (st : St) (param : String) :
    ((commandRnfrExecute env st param).finalSt).sub.user = st.sub.user := rfl

/-- RNTO preserves the login field. -/
theorem rnto_user (env : Env) (st : St) (param : String) :
    ((commandRntoExecute env st param).finalSt).sub.user = st.sub.user := by
  simp only [commandRntoExecute]
  repeat' split
  all_goals rfl

/-- RMD preserves the login field. -/
theorem rmd_user (env : Env) (st : St) (param : String) :
    ((commandRmdExecute env st param).finalSt).sub.user = st.sub.user := by
  simp only [commandRmdExecute]
  repeat' split
  all_goals rfl

/-- SIZE preserves the login field. -/
theorem size_user (env : Env) (st : St) (param : String) :
    ((commandSizeExecute env st param).finalSt).sub.user = st.sub.user := by
  simp only [commandSizeExecute]
  repeat' split
  all_goals rfl

/-- STOR preserves the login field. -/
theorem stor_user (env : Env) (st : St) (param : String) :
    ((commandStorExecute env st param).finalSt).sub.user = st.sub.user := by
  simp only [commandStorExecute]
  cases hg : getReceiveDataStream st (parseInt10_64 ((goSplitN2 param ' ').headD "")).1 with
  | mk r st1 =>
    have hsub : st1.sub = st.sub := by
      have h := grds_sub st (parseInt10_64 ((goSplitN2 param ' ').headD "")).1
      rw [hg] at h
      exact h
    repeat' split
    all_goals simp [Outcome.finalSt, hsub]

/-- STRU preserves the login field. -/
theorem stru_user (env : Env) (st : St) (param : String) :
    ((commandStruExecute env st param).finalSt).sub.user = st.sub.user := by
  unfold commandStruExecute
  split_ifs <;> rfl

/-- SYST preserves the login field. -/
theorem syst_user (env : Env) (st : St) (param : String) :
    ((commandSystExecute env st param).finalSt).sub.user = st.sub.user := rfl

/-- TYPE preserves the login field. -/
theorem type_user (env : Env) (st : St) (param : String) :
    ((commandTypeExecute env st param).finalSt).sub.user = st.sub.user := by
  unfold commandTypeExecute
  split_ifs <;> rfl

/-- USER preserves the login field (it only stages reqUser). -/
theorem user_user (env : Env) (st : St) (param : String) :
    ((commandUserExecute env st param).finalSt).sub.user = st.sub.user := rfl

/-- Registry inversion: a successful lookup yields either the PASS
descriptor (and then the verb was the PASS key) or a handler that never
changes the login field. -/
theorem commands_user_preserving (s : String) (c : CmdSpec) (h : commands s = some c) :
    (s = "PASS" ∧ c = passCmd) ∨
    (∀ env st param, ((c.execute env st param).finalSt).sub.user = st.sub.user) := by
  unfold commands at h
  by_cases h1 : s = "ALLO"
  · rw [if_pos h1] at h
    injection h with h
    subst h
    exact Or.inr (fun env st param => allo_user env st param)
  rw [if_neg h1] at h
  by_cases h2 : s = "APPE"
  · rw [if_pos h2] at h
    injection h with h
    subst h
    exact Or.inr (fun env st param => appe_user env st param)
  rw [if_neg h2] at h
  by_cases h3 : s = "CDUP"
  · rw [if_pos h3] at h
    injection h with h
    subst h
    exact Or.inr (fun env st param => cdup_user env st param)
  rw [if_neg h3] at h
  by_cases h4 : s = "CWD"
  · rw [if_pos h4] at h
    injection h with h
    subst h
    exact Or.inr (fun env st param => cwd_user env st param)
  rw [if_neg h4] at h
  by_cases h5 : s = "DELE"
  · rw [if_pos h5] at h
    injection h with h
    subst h
    exact Or.inr (fun env st param => dele_user env st param)
  rw [if_neg h5] at h
  by_cases h6 : s = "FEAT"
  · rw [if_pos h6] at h
    injection h with h
    subst h
    exact Or.inr (fun env st param => feat_user env st param)
  rw [if_neg h6] at h
  by_cases h7 : s = "LIST"
  · rw [if_pos h7] at h
    injection h with h
    subst h
    exact Or.inr (fun env st param => list_user env st param)
  rw [if_neg h7] at h
  by_cases h8 : s = "NLST"
  · rw [if_pos h8] at h
    injection h with h
    subst h
    exact Or.inr (fun env st param => nlst_user env st param)
  rw [if_neg h8] at h
  by_cases h9 : s = "MDTM"
  · rw [if_pos h9] at h
    injection h with h
    subst h
    exact Or.inr (fun env st param => mdtm_user env st param)
  rw [if_neg h9] at h
  by_cases h10 : s = "MKD"
  · rw [if_pos h10] at h
    injection h with h
    subst h
    exact Or.inr (fun env st param => mkd_user env st param)
  rw [if_neg h10] at h
  by_cases h11 : s = "MODE"
  · rw [if_pos h11] at h
    injection h with h
    subst h
    exact Or.inr (fun env st param => mode_user env st param)
  rw [if_neg h11] at h
  by_cases h12 : s = "NOOP"
  · rw [if_pos h12] at h
    injection h with h
    subst h
    exact Or.inr (fun env st param => noop_user env st param)
  rw [if_neg h12] at h
  by_cases h13 : s = "OPTS"
  · rw [if_pos h13] at h
    injection h with h
    subst h
    exact Or.inr (fun env st param => opts_user env st param)
  rw [if_neg h13] at h
  by_cases h14 : s = "PASS"
  · rw [if_pos h14] at h
    injection h with h
    exact Or.inl ⟨h14, h.symm⟩
  rw [if_neg h14] at h
  by_cases h15 : s = "PWD"
  · rw [if_pos h15] at h
    injection h with h
    subst h
    exact Or.inr (fun env st param => pwd_user env st param)
  rw [if_neg h15] at h
  by_cases h16 : s = "QUIT"
  · rw [if_pos h16] at h
    injection h with h
    subst h
    exact Or.inr (fun env st param => quit_user env st param)
  rw [if_neg h16] at h
  by_cases h17 : s = "RETR"
  · rw [if_pos h17] at h
    injection h with h
    subst h
    exact Or.inr (fun env st param => retr_user env st param)
  rw [if_neg h17] at h
  by_cases h18 : s = "REST"
  · rw [if_pos h18] at h
    injection h with h
    subst h
    exact Or.inr (fun env st param => rest_user env st param)
  rw [if_neg h18] at h
  by_cases h19 : s = "RNFR"
  · rw [if_pos h19] at h
    injection h with h
    subst h
    exact Or.inr (fun env st param => rnfr_user env st param)
  rw [if_neg h19] at h
  by_cases h20 : s = "RNTO"
  · rw [if_pos h20] at h
    injection h with h
    subst h
    exact Or.inr (fun env st param => rnto_user env st param)
  rw [if_neg h20] at h
  by_cases h21 : s = "RMD"
  · rw [if_pos h21] at h
    injection h with h
    subst h
    exact Or.inr (fun env st param => rmd_user env st param)
  rw [if_neg h21] at h
  by_cases h22 : s = "SIZE"
  · rw [if_pos h22] at h
    injection h with h
    subst h
    exact Or.inr (fun env st param => size_user env st param)
  rw [if_neg h22] at h
  by_cases h23 : s = "STOR"
  · rw [if_pos h23] at h
    injection h with h
    subst h
    exact Or.inr (fun env st param => stor_user env st param)
  rw [if_neg h23] at h
  by_cases h24 : s = "STRU"
  · rw [if_pos h24] at h
    injection h with h
    subst h
    exact Or.inr (fun env st param => stru_user env st param)
  rw [if_neg h24] at h
  by_cases h25 : s = "SYST"
  · rw [if_pos h25] at h
    injection h with h
    subst h
    exact Or.inr (fun env st param => syst_user env st param)
  rw [if_neg h25] at h
  by_cases h26 : s = "TYPE"
  · rw [if_pos h26] at h
    injection h with h
    subst h
    exact Or.inr (fun env st param => type_user env st param)
  rw [if_neg h26] at h
  by_cases h27 : s = "USER"
  · rw [if_pos h27] at h
    injection h with h
    subst h
    exact Or.inr (fun env st param => user_user env st param)
  rw [if_neg h27] at h
  by_cases h28 : s = "XCUP"
  · rw [if_pos h28] at h
    injection h with h
    subst h
    exact Or.inr (fun env st param => cdup_user env st param)
  rw [if_neg h28] at h
  by_cases h29 : s = "XCWD"
  · rw [if_pos h29] at h
    injection h with h
    subst h
    exact Or.inr (fun env st param => cwd_user env st param)
  rw [if_neg h29] at h
  by_cases h30 : s = "XPWD"
  · rw [if_pos h30] at h
    injection h with h
    subst h
    exact Or.inr (fun env st param => pwd_user env st param)
  rw [if_neg h30] at h
  by_cases h31 : s = "XRMD"
  · rw [if_pos h31] at h
    injection h with h
    subst h
    exact Or.inr (fun env st param => rmd_user env st param)
  rw [if_neg h31] at h
  exact absurd h (by simp)

/-- Dispatch-level source of authentication: starting unauthenticated,
one dispatched line either leaves the login field empty or was a PASS
line whose password check succeeded. -/
theorem receiveLine_user_source (env : Env) (st : St) (line : String)
    (h0 : st.sub.user = "") :
    ((receiveLine env st line).finalSt).sub.user = "" ∨
      (goToUpper (parseLine line).1 = "PASS" ∧
       env.checkPasswd st.sub.reqUser (parseLine line).2 = .ok true) := by
  simp only [receiveLine]
  cases hc : commands (goToUpper (parseLine line).1) with
  | none => left; exact h0
  | some c =>
    show (if (c.requireParam && decide ((parseLine line).2 = "")) = true
        then Outcome.ok st [Ev.reply 553 "action aborted, required param missing"]
        else if (c.requireAuth && decide (st.sub.user = "")) = true
          then Outcome.ok st [Ev.reply 530 "not logged in"]
          else c.execute env st (parseLine line).2).finalSt.sub.user = "" ∨ _
    split_ifs with hp ha
    · left; exact h0
    · left; exact h0
    · rcases commands_user_preserving _ c hc with ⟨hs, hcp⟩ | hpres
      · subst hcp
        cases hcp2 : env.checkPasswd st.sub.reqUser (parseLine line).2 with
        | error e =>
          left
          show ((commandPassExecute env st (parseLine line).2).finalSt).sub.user = ""
          unfold commandPassExecute
          rw [hcp2]
          exact h0
        | ok b =>
          cases b with
          | false =>
            left
            show ((commandPassExecute env st (parseLine line).2).finalSt).sub.user = ""
            unfold commandPassExecute
            rw [hcp2]
            exact h0
          | true => right; exact ⟨hs, rfl⟩
      · left
        rw [hpres env st (parseLine line).2]
        exact h0

/-- A run of lines none of which is a PASS keeps the login field
empty. -/
theorem runLines_no_pass_user (env : Env) : ∀ lines : List String, ∀ st : St,
    st.sub.user = "" → (∀ l ∈ lines, goToUpper (parseLine l).1 ≠ "PASS") →
    (runLines env st lines).sub.user = ""
  | [], st, h0, _ => h0
  | l :: ls, st, h0, hnp => by
    unfold runLines
    cases hr : receiveLine env st l with
    | ok st1 t =>
      have hu : st1.sub.user = "" := by
        rcases receiveLine_user_source env st l h0 with h | ⟨hp, -⟩
        · rw [hr] at h; exact h
        · exact absurd hp (hnp l (List.mem_cons_self l ls))
      by_cases hcl : st1.sub.closed = true
      · simp [hcl, hu]
      · simp only [hcl, if_false]
        have := runLines_no_pass_user env ls st1 hu
          (fun u hu2 => hnp u (List.mem_cons_of_mem _ hu2))
        simpa [hcl] using this
    | panic st1 t m =>
      rcases receiveLine_user_source env st l h0 with h | ⟨hp, -⟩
      · rw [hr] at h; exact h
      · exact absurd hp (hnp l (List.mem_cons_self l ls))

/-- C5 (counterexample): unauthenticated, a CWD line with no parameter
is a RequireAuth command, yet it is answered 553 (the RequireParam test
runs first), not the 530 the claim assigns to every RequireAuth command
while the user is empty. -/
theorem unauth_cwd_noparam_answers_553 :
    receiveLine envW stFreshW "CWD\r\n" =
      .ok stFreshW [.reply 553 "action aborted, required param missing"] ∧
    receiveLine envW stFreshW "CWD\r\n" ≠
      .ok stFreshW [.reply 530 "not logged in"] := by
  decide

/-- C5 (amended): while user is empty a RequireAuth command is answered
without its handler running — 553 when its RequireParam is set and the
parameter is empty, 530 otherwise — the state unchanged either way;
user turns non-empty only through a dispatched PASS line whose
CheckPasswd call returned ok; and over any sequence of lines containing
no PASS the user stays empty. -/
theorem require_auth_gating :
    (∀ (env : Env) (st : St) (line : String) (c : CmdSpec), st.sub.user = "" →
      commands (goToUpper (parseLine line).1) = some c → c.requireAuth = true →
      ((c.requireParam = true ∧ (parseLine line).2 = "" →
        receiveLine env st line =
          .ok st [.reply 553 "action aborted, required param missing"]) ∧
       (¬(c.requireParam = true ∧ (parseLine line).2 = "") →
        receiveLine env st line = .ok st [.reply 530 "not logged in"]))) ∧
    (∀ (env : Env) (st : St) (line : String), st.sub.user = "" →
      ((receiveLine env st line).finalSt).sub.user ≠ "" →
      goToUpper (parseLine line).1 = "PASS" ∧
      env.checkPasswd st.sub.reqUser (parseLine line).2 = .ok true) ∧
    (∀ (env : Env) (st : St) (lines : List String), st.sub.user = "" →
      (∀ l ∈ lines, goToUpper (parseLine l).1 ≠ "PASS") →
      (runLines env st lines).sub.user = "") := by
  refine ⟨?_, ?_, ?_⟩
  · intro env st line c h0 hc hauth
    constructor
    · intro hpp
      simp [receiveLine, hc, hpp.1, hpp.2]
    · intro hpp
      have hcond : (c.requireParam && decide ((parseLine line).2 = "")) = false := by
        rcases not_and_or.mp hpp with h | h
        · simp only [Bool.not_eq_true] at h
          simp [h]
        · simp [h]
      simp [receiveLine, hc, hcond, hauth, h0]
  · intro env st line h0 hne
    rcases receiveLine_user_source env st line h0 with h | h
    · exact absurd h hne
    · exact h
  · intro env st lines h0 hnp
    exact runLines_no_pass_user env lines st h0 hnp

/-- C5 (witness): the three parts applied concretely — an
unauthenticated LIST gets 530 with the handler not run, an
unauthenticated CWD without parameter gets 553, a successful PASS line
is recognised as the only source of login, and a PASS-free script keeps
the user empty. -/
theorem require_auth_gating_witness :
    receiveLine envW stFreshW "LIST\r\n" = .ok stFreshW [.reply 530 "not logged in"] ∧
    receiveLine envW stFreshW "CWD\r\n" =
      .ok stFreshW [.reply 553 "action aborted, required param missing"] ∧
    (goToUpper (parseLine "PASS 123456\r\n").1 = "PASS" ∧
      envW.checkPasswd (⟨⟨"/", "admin", "", "", 0, false, false⟩, [], [], []⟩ : St).sub.reqUser
        (parseLine "PASS 123456\r\n").2 = .ok true) ∧
    (runLines envW stFreshW ["USER admin\r\n", "NOOP\r\n"]).sub.user = "" := by
  refine ⟨?_, ?_, ?_, ?_⟩
  · exact ((require_auth_gating.1 envW stFreshW "LIST\r\n" listCmd rfl rfl
      (by decide)).2 (by decide))
  · exact ((require_auth_gating.1 envW stFreshW "CWD\r\n" cwdCmd rfl rfl
      (by decide)).1 (by decide))
  · exact require_auth_gating.2.1 envW ⟨⟨"/", "admin", "", "", 0, false, false⟩, [], [], []⟩
      "PASS 123456\r\n" rfl (by decide)
  · exact require_auth_gating.2.2 envW stFreshW ["USER admin\r\n", "NOOP\r\n"] rfl (by decide)

end FtpsQftp
